import Mathlib

/-!
# Verification of the g-client FSM layer

Shallow embedding of the four finite-state machines of the g-client daemon
(`src/button_handler.c`, `src/vpn_controller.c`, `src/websocket_client.c`,
`src/client_state_machine.c`) together with proofs of the spec's claims.

Conventions used throughout:
- C `int`/`long` millisecond quantities are modelled as `Int`; C `uint32_t`
  millisecond clocks are modelled as `Nat` with explicit wrap-around
  (`% 2 ^ 32`) where the C code relies on unsigned subtraction.
- Externals that the spec places out of scope (GPIO sampling, the socket and
  libwebsockets transports, LEDs, logging) are modelled as explicit inputs
  (a raw sample value, a send success flag, a receive result) and as emitted
  effect values, never as hidden state.
- Callback invocations are modelled as emitted event values.
-/

namespace ButtonHandler

/-! ## ButtonFSM — `src/button_handler.c` / `src/button_handler.h` -/

/-- `BUTTON_DEFAULT_DEBOUNCE_MS` from `button_handler.h`. -/
def BUTTON_DEFAULT_DEBOUNCE_MS : Int := 50

/-- `BUTTON_LONG_PRESS_THRESHOLD_MS` from `button_handler.h`. -/
def BUTTON_LONG_PRESS_THRESHOLD_MS : Int := 2000

/-- `BUTTON_POLL_INTERVAL_MS` from `button_handler.h`. -/
def BUTTON_POLL_INTERVAL_MS : Int := 10

/-- `button_state_t`. -/
inductive ButtonState where
  | IDLE
  | DEBOUNCING
  | PRESSED
  | LONG_DETECTED
deriving DecidableEq, Repr

/-- `button_event_t` (the values actually emitted through the callback). -/
inductive ButtonEvent where
  | SHORT_PRESS
  | LONG_PRESS
deriving DecidableEq, Repr

/-- `button_context_t`.  The GPIO line itself and the registered callback
pointer are external collaborators; the raw sample is an input of the tick
function and callback invocations are returned as a list of events. -/
structure ButtonCtx where
  gpio_pin : Int
  debounce_ms : Int
  long_press_threshold_ms : Int
  current_state : ButtonState
  initialized : Bool
  running : Bool
  press_start_time : Int
  last_state_change_time : Int
  stable_count : Int
  long_press_triggered : Bool
deriving DecidableEq, Repr

/-- `change_state` in `button_handler.c` (lines 110-115): updates the state
and the timestamp only when the state actually changes. -/
def change_state (c : ButtonCtx) (new_state : ButtonState) (now : Int) : ButtonCtx :=
  if c.current_state = new_state then c
  else { c with current_state := new_state, last_state_change_time := now }

/-- The `required_stable` computation of `update_state_machine`
(`button_handler.c` lines 166-167): integer division of the debounce
duration by the poll interval, clamped below at 1. -/
def required_stable (debounce_ms : Int) : Int :=
  let r := debounce_ms.tdiv BUTTON_POLL_INTERVAL_MS
  if r < 1 then 1 else r

/-- `update_state_machine` (`button_handler.c` lines 129-216).
`current_value` is the raw GPIO sample (negative = read error, 0 = pressed
since the line is active low, nonzero = released); `now` is the current
monotonic time in ms.  Returns the updated context and the events emitted
through `trigger_event` during this tick. -/
def update_state_machine (c : ButtonCtx) (current_value : Int) (now : Int) :
    ButtonCtx × List ButtonEvent :=
  if current_value < 0 then
    (c, [])
  else
    let button_pressed : Bool := current_value = 0
    match c.current_state with
    | .IDLE =>
        if button_pressed then
          let c1 := change_state c .DEBOUNCING now
          ({ c1 with stable_count := 0, long_press_triggered := false }, [])
        else (c, [])
    | .DEBOUNCING =>
        if button_pressed then
          let c1 := { c with stable_count := c.stable_count + 1 }
          if c1.stable_count ≥ required_stable c1.debounce_ms then
            let c2 := change_state c1 .PRESSED now
            ({ c2 with press_start_time := now }, [])
          else (c1, [])
        else (change_state c .IDLE now, [])
    | .PRESSED =>
        if button_pressed then
          let press_duration := now - c.press_start_time
          if press_duration ≥ c.long_press_threshold_ms ∧ c.long_press_triggered = false then
            let c1 := { c with long_press_triggered := true }
            (change_state c1 .LONG_DETECTED now, [.LONG_PRESS])
          else (c, [])
        else
          let evs : List ButtonEvent :=
            if c.long_press_triggered = false then [.SHORT_PRESS] else []
          (change_state c .IDLE now, evs)
    | .LONG_DETECTED =>
        if button_pressed then (c, [])
        else (change_state c .IDLE now, [])

/-- One raw GPIO sample together with the monotonic time at which the tick
reads it. -/
structure Sample where
  raw : Int
  now : Int
deriving DecidableEq, Repr

/-- Iterated ticks of `update_state_machine` over a list of samples,
accumulating the emitted events (what `button_handler_process` does on each
poll iteration, with the external reads made explicit). -/
def run : ButtonCtx → List Sample → ButtonCtx × List ButtonEvent
  | c, [] => (c, [])
  | c, s :: rest =>
      let r1 := update_state_machine c s.raw s.now
      let r2 := run r1.1 rest
      (r2.1, r1.2 ++ r2.2)

/-- The all-zero context produced by `memset` in `button_handler_init`. -/
def zeroCtx : ButtonCtx where
  gpio_pin := 0
  debounce_ms := 0
  long_press_threshold_ms := 0
  current_state := .IDLE
  initialized := false
  running := false
  press_start_time := 0
  last_state_change_time := 0
  stable_count := 0
  long_press_triggered := false

/-- `button_handler_init` (`button_handler.c` lines 222-257).  The GPIO
input-direction setup is an external collaborator (compiled out in the
TESTING build) and is not modelled. -/
def button_handler_init (c : ButtonCtx) (pin debounce_ms : Int) : Int × ButtonCtx :=
  if c.initialized then (-1, c)
  else if pin < 0 then (-1, c)
  else
    let c1 := { zeroCtx with
      gpio_pin := pin,
      debounce_ms := if debounce_ms > 0 then debounce_ms else BUTTON_DEFAULT_DEBOUNCE_MS,
      long_press_threshold_ms := BUTTON_LONG_PRESS_THRESHOLD_MS,
      current_state := ButtonState.IDLE,
      initialized := true,
      running := false }
    (0, c1)

end ButtonHandler

/-- 32-bit wrap-around modulus used by the `uint32_t` millisecond clocks. -/
def UINT32_MOD : Nat := 2 ^ 32

/-- C unsigned 32-bit subtraction `a - b` (as used in all the
`current_time - start_time` timeout comparisons). -/
def u32_sub (a b : Nat) : Nat := (a % UINT32_MOD + UINT32_MOD - b % UINT32_MOD) % UINT32_MOD

/-- C `strstr(s, pattern) != NULL` restricted to pattern lookup: `true` iff
`pattern` occurs as a contiguous substring of `s`. -/
def contains_substring_list (pattern : List Char) : List Char → Bool
  | [] => pattern.isEmpty
  | c :: rest => pattern.isPrefixOf (c :: rest) || contains_substring_list pattern rest

/-- `strstr(s, pattern) != NULL` on strings. -/
def contains_substring (s pattern : String) : Bool :=
  contains_substring_list pattern.toList s.toList

namespace WebsocketClient

/-! ## NetworkSessionFSM — `src/websocket_client.c` / `src/websocket_client.h` -/

/-- `WS_MAX_MESSAGE_SIZE` from `websocket_client.h`. -/
def WS_MAX_MESSAGE_SIZE : Nat := 4096

/-- `ws_state_t`. -/
inductive WsState where
  | DISCONNECTED
  | CONNECTING
  | CONNECTED
  | DISCONNECTING
  | ERROR
deriving DecidableEq, Repr

/-- `ws_error_t`. -/
inductive WsError where
  | NONE
  | INIT
  | CONNECT
  | SEND
  | RECEIVE
  | TIMEOUT
  | PROTOCOL
  | CLOSED
deriving DecidableEq, Repr

/-- `ws_client_ctx_t`.  The libwebsockets context/connection handles are
external; the registered callbacks are modelled as emitted events. -/
structure WsCtx where
  initialized : Bool
  server_host : String
  server_port : Int
  current_state : WsState
  previous_state : WsState
  auto_reconnect : Bool
  reconnect_attempts : Nat
  reconnect_interval : Nat
  last_reconnect_time : Nat
  max_reconnect_interval : Nat
  last_ping_time : Nat
  ping_interval : Nat
  waiting_for_pong : Bool
  send_buffer : String
  send_buffer_len : Nat
  recv_buffer : String
  recv_buffer_len : Nat
deriving DecidableEq, Repr

/-- Callback invocations made by `change_state` in `websocket_client.c`. -/
inductive WsCbEvent where
  | connected
  | disconnected (reason : String)
  | error (e : WsError) (msg : String)
deriving DecidableEq, Repr

/-- `change_state` in `websocket_client.c` (lines 124-148): early-returns on
an equal state, otherwise records the previous state, switches, and fires
the callback matching the new state. -/
def change_state (c : WsCtx) (new_state : WsState) : WsCtx × List WsCbEvent :=
  if c.current_state = new_state then (c, [])
  else
    let c1 := { c with previous_state := c.current_state, current_state := new_state }
    let evs : List WsCbEvent :=
      if new_state = .CONNECTED then [.connected]
      else if new_state = .DISCONNECTED then [.disconnected "Disconnected"]
      else if new_state = .ERROR then [.error .CONNECT "Connection error"]
      else []
    (c1, evs)

/-- `calculate_reconnect_interval` (`websocket_client.c` lines 153-161):
`uint32_t interval = reconnect_interval * (1 << reconnect_attempts)` — a
32-bit multiplication, hence the explicit `% 2 ^ 32` — capped at
`max_reconnect_interval`. -/
def calculate_reconnect_interval (c : WsCtx) : Nat :=
  let interval := c.reconnect_interval * 2 ^ c.reconnect_attempts % UINT32_MOD
  if interval > c.max_reconnect_interval then c.max_reconnect_interval else interval

/-- `should_reconnect` (`websocket_client.c` lines 166-183).
Modelled from the spec: the attempt cap `WS_MAX_RECONNECT_ATTEMPTS`
referenced by `websocket_client.c` is not defined anywhere under `src/`
(the header only defines the delay constants), so the configured cap is the
explicit parameter `max_reconnect_attempts` here ("attempts capped so the
scheduler never retries unboundedly", spec §3). -/
def should_reconnect (c : WsCtx) (max_reconnect_attempts : Nat) (now : Nat) : Bool :=
  if c.auto_reconnect = false then false
  else if c.reconnect_attempts ≥ max_reconnect_attempts then false
  else if u32_sub now c.last_reconnect_time < calculate_reconnect_interval c then false
  else true

/-- `ws_client_send` (`websocket_client.c` lines 377-405).  A NULL `message`
is `none`.  On success the payload is queued in `send_buffer` (the `strncpy`
cap at `sizeof - 1` is the `take`) and a transport writable signal is
requested (external, not modelled). -/
def ws_client_send (c : WsCtx) (message : Option String) : Int × WsCtx :=
  match message with
  | none => (-1, c)
  | some msg =>
      if c.initialized = false then (-1, c)
      else if c.current_state ≠ .CONNECTED then (-1, c)
      else if msg.length ≥ WS_MAX_MESSAGE_SIZE then (-1, c)
      else
        (0, { c with
          send_buffer := String.mk (msg.toList.take (WS_MAX_MESSAGE_SIZE - 1)),
          send_buffer_len := msg.length })

end WebsocketClient

namespace VpnController

/-! ## ControlChannelFSM — `src/vpn_controller.c` / `src/vpn_controller.h` -/

/-- `VPN_CONNECT_TIMEOUT_MS` from `vpn_controller.h`. -/
def VPN_CONNECT_TIMEOUT_MS : Nat := 30000

/-- `VPN_COMMAND_TIMEOUT_MS` from `vpn_controller.h`. -/
def VPN_COMMAND_TIMEOUT_MS : Nat := 5000

/-- `VPN_MAX_RETRY_ATTEMPTS` from `vpn_controller.h`. -/
def VPN_MAX_RETRY_ATTEMPTS : Nat := 3

/-- `VPN_RETRY_INTERVAL_MS` from `vpn_controller.h`. -/
def VPN_RETRY_INTERVAL_MS : Nat := 5000

/-- `vpn_state_t`. -/
inductive VpnState where
  | UNKNOWN
  | DISCONNECTED
  | CONNECTING
  | CONNECTED
  | DISCONNECTING
  | ERROR
deriving DecidableEq, Repr

/-- `vpn_controller_ctx_t`.  The Unix socket is an external collaborator:
`send_command`'s success is an explicit input and `receive_response`'s
outcome is the `RecvResult` input; the cached `vpn_info_t` snapshot and the
callback pointer are omitted (the state-change callback is modelled as the
emitted `(old, new)` pair). -/
structure VpnCtx where
  initialized : Bool
  sockfd : Int
  current_state : VpnState
  previous_state : VpnState
  retry_count : Nat
  last_retry_time : Nat
  retry_interval : Nat
  operation_start_time : Nat
  operation_timeout : Nat
  operation_pending : Bool
  pending_command : String
deriving DecidableEq, Repr

/-- `change_state` in `vpn_controller.c` (lines 113-131): early-returns on
an equal state, otherwise records the previous state, switches, and invokes
the callback with `(previous, new)`. -/
def change_state (c : VpnCtx) (new_state : VpnState) : VpnCtx × Option (VpnState × VpnState) :=
  if c.current_state = new_state then (c, none)
  else
    ({ c with previous_state := c.current_state, current_state := new_state },
     some (c.current_state, new_state))

/-- `is_timeout` (`vpn_controller.c` lines 105-108), with the current time
made explicit: `(current_time - start_time) >= timeout_ms` in `uint32_t`
arithmetic. -/
def is_timeout (start_time timeout_ms now : Nat) : Bool :=
  u32_sub now start_time ≥ timeout_ms

/-- `should_retry` (`vpn_controller.c` lines 306-317). -/
def should_retry (c : VpnCtx) (now : Nat) : Bool :=
  if c.retry_count ≥ VPN_MAX_RETRY_ATTEMPTS then false
  else if u32_sub now c.last_retry_time < c.retry_interval then false
  else true

/-- Outcome of `receive_response` (`vpn_controller.c` lines 206-245): a hard
I/O failure or peer close (return -1), no data yet (`EAGAIN`, return 0), or
a received payload (return > 0). -/
inductive RecvResult where
  | ioError
  | noData
  | payload (s : String)
deriving DecidableEq, Repr

/-- `parse_state_from_response` (`vpn_controller.c` lines 250-265):
substring search for each state token, unrecognized payloads map to
`UNKNOWN`. -/
def parse_state_from_response (response : String) : VpnState :=
  if contains_substring response "\"state\":\"connected\"" then .CONNECTED
  else if contains_substring response "\"state\":\"connecting\"" then .CONNECTING
  else if contains_substring response "\"state\":\"disconnecting\"" then .DISCONNECTING
  else if contains_substring response "\"state\":\"disconnected\"" then .DISCONNECTED
  else if contains_substring response "\"state\":\"error\"" then .ERROR
  else .UNKNOWN

/-- Result of a public VPN-controller call: the C return value, the updated
context, and the state-change callback invocations (at most one). -/
structure VpnResult where
  ret : Int
  ctx : VpnCtx
  cb : List (VpnState × VpnState)
deriving DecidableEq, Repr

/-- `vpn_controller_connect` (`vpn_controller.c` lines 359-389).  `send_ok`
is the outcome of the external `send_command("connect")` (socket transmit);
`now` is the current time for the operation timestamps. -/
def vpn_controller_connect (c : VpnCtx) (now : Nat) (send_ok : Bool) : VpnResult :=
  if c.initialized = false then ⟨-1, c, []⟩
  else if c.current_state = .CONNECTED then ⟨-1, c, []⟩
  else if c.current_state = .CONNECTING then ⟨-1, c, []⟩
  else if send_ok = false then
    let r := change_state c .ERROR
    ⟨-1, r.1, r.2.toList⟩
  else
    let r := change_state c .CONNECTING
    ⟨0, { r.1 with
      operation_start_time := now,
      operation_timeout := VPN_CONNECT_TIMEOUT_MS,
      operation_pending := true,
      retry_count := 0,
      pending_command := "connect" }, r.2.toList⟩

/-- `vpn_controller_disconnect` (`vpn_controller.c` lines 391-415).
Disconnecting while already `DISCONNECTED` returns 0 without touching the
context. -/
def vpn_controller_disconnect (c : VpnCtx) (now : Nat) (send_ok : Bool) : VpnResult :=
  if c.initialized = false then ⟨-1, c, []⟩
  else if c.current_state = .DISCONNECTED then ⟨0, c, []⟩
  else if send_ok = false then
    let r := change_state c .ERROR
    ⟨-1, r.1, r.2.toList⟩
  else
    let r := change_state c .DISCONNECTING
    ⟨0, { r.1 with
      operation_start_time := now,
      operation_timeout := VPN_COMMAND_TIMEOUT_MS,
      operation_pending := true,
      pending_command := "disconnect" }, r.2.toList⟩

/-- Result of one `vpn_controller_process` tick; `retry_sent` records
whether this tick re-issued (re-sent) the pending command as a retry. -/
structure VpnProcResult where
  ret : Int
  ctx : VpnCtx
  cb : List (VpnState × VpnState)
  retry_sent : Bool
deriving DecidableEq, Repr

/-- `vpn_controller_process` (`vpn_controller.c` lines 474-545).  `send_ok`
is the outcome of the external command resend (only consulted on the retry
path) and `recv` the outcome of the external non-blocking receive. -/
def vpn_controller_process (c : VpnCtx) (now : Nat) (send_ok : Bool) (recv : RecvResult) :
    VpnProcResult :=
  if c.initialized = false then ⟨-1, c, [], false⟩
  else if c.operation_pending = false then ⟨0, c, [], false⟩
  else if is_timeout c.operation_start_time c.operation_timeout now then
    if should_retry c now then
      let c1 := { c with
        retry_count := c.retry_count + 1,
        last_retry_time := now,
        operation_start_time := now }
      if send_ok = false then
        let r := change_state c1 .ERROR
        ⟨-1, { r.1 with operation_pending := false }, r.2.toList, true⟩
      else ⟨0, c1, [], true⟩
    else
      let r := change_state c .ERROR
      ⟨-1, { r.1 with operation_pending := false }, r.2.toList, false⟩
  else
    match recv with
    | .ioError =>
        let r := change_state c .ERROR
        ⟨-1, { r.1 with operation_pending := false }, r.2.toList, false⟩
    | .noData => ⟨0, c, [], false⟩
    | .payload s =>
        let new_state := parse_state_from_response s
        if new_state ≠ .UNKNOWN then
          let r := change_state c new_state
          ⟨0, { r.1 with operation_pending := false, retry_count := 0 }, r.2.toList, false⟩
        else ⟨0, c, [], false⟩

/-- External inputs of one `vpn_controller_process` tick. -/
structure VpnInput where
  now : Nat
  send_ok : Bool
  recv : RecvResult
deriving DecidableEq, Repr

/-- Iterated `vpn_controller_process` ticks, counting how many ticks
re-issued the pending command as a retry. -/
def run : VpnCtx → List VpnInput → VpnCtx × Nat
  | c, [] => (c, 0)
  | c, i :: rest =>
      let r := vpn_controller_process c i.now i.send_ok i.recv
      let r2 := run r.ctx rest
      (r2.1, (if r.retry_sent then 1 else 0) + r2.2)

end VpnController

namespace ClientStateMachine

/-! ## Orchestrator — `src/client_state_machine.c` / `src/client_state_machine.h` -/

/-- `CLIENT_PS5_QUERY_TIMEOUT_S` from `client_state_machine.h`. -/
def CLIENT_PS5_QUERY_TIMEOUT_S : Nat := 5

/-- `client_state_t`. -/
inductive ClientState where
  | IDLE
  | VPN_CONNECTING
  | VPN_CONNECTED
  | WS_CONNECTING
  | QUERYING_PS5
  | LED_UPDATE
  | WAITING
  | ERROR
  | CLEANUP
deriving DecidableEq, Repr

/-- `ps5_status_t`. -/
inductive Ps5Status where
  | UNKNOWN
  | OFF
  | STANDBY
  | ON
deriving DecidableEq, Repr

/-- `client_error_t`. -/
inductive ClientError where
  | NONE
  | VPN_TIMEOUT
  | VPN_FAILED
  | WS_TIMEOUT
  | WS_FAILED
  | PS5_TIMEOUT
  | PS5_FAILED
  | MAX_RETRIES
deriving DecidableEq, Repr

/-- `client_stats_t`. -/
structure ClientStats where
  button_press_count : Nat
  successful_queries : Nat
  failed_queries : Nat
  vpn_connect_count : Nat
  vpn_success_count : Nat
  error_count : Nat
  last_query_time : Nat
deriving DecidableEq, Repr

/-- `client_config_t`. -/
structure ClientConfig where
  button_pin : Int
  button_debounce_ms : Int
  vpn_socket_path : String
  ws_server_host : String
  ws_server_port : Int
  auto_retry : Bool
  max_retry_attempts : Int
deriving DecidableEq, Repr

/-- `struct client_context_t`.  The three subordinate module contexts are
process-wide singletons in C, not fields of this struct; calls into them
and into the LED driver are modelled as emitted `ClientEff` effects. -/
structure ClientCtx where
  initialized : Bool
  current_state : ClientState
  previous_state : ClientState
  config : ClientConfig
  ps5_status : Ps5Status
  stats : ClientStats
  state_enter_time : Nat
  current_timeout : Nat
  last_error : ClientError
  error_count : Int
  in_error_recovery : Bool
  led_update_done : Bool
  led_update_start_time : Nat
deriving DecidableEq, Repr

/-- Outward calls made by the orchestrator: callback invocations, calls into
the subordinate modules, and LED-driver calls. -/
inductive ClientEff where
  | stateCb (old_state new_state : ClientState)
  | errorCb (e : ClientError) (msg : String)
  | wsSend (msg : String)
  | wsDisconnect
  | vpnDisconnect
  | ledForState (s : ClientState)
  | ledOff
deriving DecidableEq, Repr

/-- `change_state` in `client_state_machine.c` (lines 137-156):
early-returns on an equal state, otherwise records the previous state,
switches, stamps the entry time, and invokes the state callback with
`(previous, new)`. -/
def change_state (c : ClientCtx) (new_state : ClientState) (now : Nat) :
    ClientCtx × List ClientEff :=
  if c.current_state = new_state then (c, [])
  else
    ({ c with
        previous_state := c.current_state,
        current_state := new_state,
        state_enter_time := now },
     [.stateCb c.current_state new_state])

/-- `report_error` (`client_state_machine.c` lines 161-173). -/
def report_error (c : ClientCtx) (e : ClientError) (msg : String) :
    ClientCtx × List ClientEff :=
  ({ c with
      last_error := e,
      error_count := c.error_count + 1,
      stats := { c.stats with error_count := c.stats.error_count + 1 } },
   [.errorCb e msg])

/-- `is_state_timeout` (`client_state_machine.c` lines 125-132), current
time explicit. -/
def is_state_timeout (c : ClientCtx) (now : Nat) : Bool :=
  if c.current_timeout = 0 then false
  else u32_sub now c.state_enter_time ≥ c.current_timeout

/-- The query payload sent by `handle_querying_ps5_state`. -/
def ps5QueryMsg : String := "\x7b\"type\":\"query_ps5\"\x7d"

/-- The timeout tail of `handle_querying_ps5_state` (`client_state_machine.c`
lines 461-466), shared by both flag branches: on a state timeout it reports
`PS5_TIMEOUT`, enters `ERROR`, resets the shared `query_sent` flag and
counts a failed query. -/
def querying_timeout_step (c : ClientCtx) (query_sent : Bool) (now : Nat) :
    ClientCtx × Bool × List ClientEff :=
  if is_state_timeout c now then
    let r1 := report_error c .PS5_TIMEOUT "PS5 query timeout"
    let r2 := change_state r1.1 .ERROR now
    ({ r2.1 with stats := { r2.1.stats with failed_queries := r2.1.stats.failed_queries + 1 } },
     false, r1.2 ++ r2.2)
  else (c, query_sent, [])

/-- `handle_querying_ps5_state` (`client_state_machine.c` lines 442-469).
The C function keeps a function-local `static bool query_sent` — storage
shared across ticks, state entries and instances, reset only on the error
and timeout paths — threaded here explicitly as `query_sent`.
`ws_send_ret` is the result of the external `ws_client_send` call (consulted
only when the flag is clear). -/
def handle_querying_ps5_state (c : ClientCtx) (query_sent : Bool) (ws_send_ret : Int)
    (now : Nat) : ClientCtx × Bool × List ClientEff :=
  if query_sent = false then
    if ws_send_ret = 0 then
      let r := querying_timeout_step c true now
      (r.1, r.2.1, ClientEff.wsSend ps5QueryMsg :: r.2.2)
    else
      let r1 := report_error c .PS5_FAILED "Failed to send PS5 query"
      let r2 := change_state r1.1 .ERROR now
      (r2.1, false, ClientEff.wsSend ps5QueryMsg :: (r1.2 ++ r2.2))
  else querying_timeout_step c query_sent now

/-- `on_ws_message` (`client_state_machine.c` lines 301-334): substring
search classifies the PS5 status, statistics are updated, and — when the
orchestrator is in `QUERYING_PS5` — it advances to `LED_UPDATE`.
`t_query` is the `time(NULL)` wall-clock second stamp, `now` the millisecond
clock used by `change_state`. -/
def on_ws_message (c : ClientCtx) (message : String) (t_query now : Nat) :
    ClientCtx × List ClientEff :=
  let c1 :=
    if contains_substring message "\"status\":\"on\"" then
      { c with ps5_status := .ON,
               stats := { c.stats with successful_queries := c.stats.successful_queries + 1 } }
    else if contains_substring message "\"status\":\"standby\"" then
      { c with ps5_status := .STANDBY,
               stats := { c.stats with successful_queries := c.stats.successful_queries + 1 } }
    else if contains_substring message "\"status\":\"off\"" then
      { c with ps5_status := .OFF,
               stats := { c.stats with successful_queries := c.stats.successful_queries + 1 } }
    else
      { c with ps5_status := .UNKNOWN,
               stats := { c.stats with failed_queries := c.stats.failed_queries + 1 } }
  let c2 := { c1 with stats := { c1.stats with last_query_time := t_query } }
  if c2.current_state = .QUERYING_PS5 then change_state c2 .LED_UPDATE now
  else (c2, [])

/-- `on_ws_connected` (`client_state_machine.c` lines 339-354). -/
def on_ws_connected (c : ClientCtx) (now : Nat) : ClientCtx × List ClientEff :=
  if c.current_state = .WS_CONNECTING then change_state c .QUERYING_PS5 now
  else (c, [])

/-- `handle_error_state` (`client_state_machine.c` lines 495-527).  The
`nanosleep` back-off delays block the tick and carry no state; they are not
modelled. -/
def handle_error_state (c : ClientCtx) (now : Nat) : ClientCtx × List ClientEff :=
  if c.error_count < c.config.max_retry_attempts ∧ c.config.auto_retry = true then
    let r := change_state c .CLEANUP now
    (r.1, ClientEff.ledForState .ERROR :: r.2)
  else
    let r1 := report_error c .MAX_RETRIES "Maximum retry attempts exceeded"
    let r2 := change_state r1.1 .CLEANUP now
    (r2.1, ClientEff.ledForState .ERROR :: (r1.2 ++ r2.2))

/-- `handle_cleanup_state` (`client_state_machine.c` lines 529-547):
unconditionally tears both sessions down and turns the LED off (twice, as in
the source), resets `error_count` only when the last recorded error is
`CLIENT_ERROR_NONE`, and returns to `IDLE`. -/
def handle_cleanup_state (c : ClientCtx) (now : Nat) : ClientCtx × List ClientEff :=
  let c1 := if c.last_error = .NONE then { c with error_count := 0 } else c
  let r := change_state c1 .IDLE now
  (r.1, [ClientEff.wsDisconnect, ClientEff.vpnDisconnect, ClientEff.ledOff, ClientEff.ledOff]
        ++ r.2)

end ClientStateMachine

/-! ## Concrete contexts used by witnesses and counterexamples -/

/-- An initialized WebSocket context in its post-`ws_client_init` rest state
(base reconnect interval 1000 ms, cap 60000 ms — spec §8's "1s, 2s, 4s,
capped" schedule). -/
def wsCtxBase : WebsocketClient.WsCtx where
  initialized := true
  server_host := "192.168.1.1"
  server_port := 8765
  current_state := .DISCONNECTED
  previous_state := .DISCONNECTED
  auto_reconnect := true
  reconnect_attempts := 0
  reconnect_interval := 1000
  last_reconnect_time := 0
  max_reconnect_interval := 60000
  last_ping_time := 0
  ping_interval := 30000
  waiting_for_pong := false
  send_buffer := ""
  send_buffer_len := 0
  recv_buffer := ""
  recv_buffer_len := 0

/-- `wsCtxBase` after two reconnect attempts. -/
def wsCtxAttempts2 : WebsocketClient.WsCtx := { wsCtxBase with reconnect_attempts := 2 }

/-- `wsCtxBase` after 29 reconnect attempts: `1000 * 2 ^ 29 = 125 * 2 ^ 32`,
so the 32-bit product wraps to exactly 0. -/
def wsCtxAttempts29 : WebsocketClient.WsCtx := { wsCtxBase with reconnect_attempts := 29 }

/-- An initialized VPN-controller context in the `CONNECTED` state with no
pending operation. -/
def vpnCtxConnected : VpnController.VpnCtx where
  initialized := true
  sockfd := 100
  current_state := .CONNECTED
  previous_state := .CONNECTING
  retry_count := 0
  last_retry_time := 0
  retry_interval := 5000
  operation_start_time := 0
  operation_timeout := 30000
  operation_pending := false
  pending_command := "connect"

/-- An initialized VPN-controller context in the `DISCONNECTED` rest state. -/
def vpnCtxDisconnected : VpnController.VpnCtx where
  initialized := true
  sockfd := -1
  current_state := .DISCONNECTED
  previous_state := .UNKNOWN
  retry_count := 0
  last_retry_time := 0
  retry_interval := 5000
  operation_start_time := 0
  operation_timeout := 30000
  operation_pending := false
  pending_command := ""

/-- A VPN-controller context with a pending connect command whose retry
budget is exhausted. -/
def vpnCtxExhausted : VpnController.VpnCtx where
  initialized := true
  sockfd := 100
  current_state := .CONNECTING
  previous_state := .DISCONNECTED
  retry_count := 3
  last_retry_time := 90000
  retry_interval := 5000
  operation_start_time := 90000
  operation_timeout := 30000
  operation_pending := true
  pending_command := "connect"

/-- A VPN-controller context with a freshly issued connect command. -/
def vpnCtxPending : VpnController.VpnCtx where
  initialized := true
  sockfd := 100
  current_state := .CONNECTING
  previous_state := .DISCONNECTED
  retry_count := 0
  last_retry_time := 0
  retry_interval := 5000
  operation_start_time := 1000
  operation_timeout := 30000
  operation_pending := true
  pending_command := "connect"

/-- The test configuration of `tests/test_client_state_machine.c`. -/
def clientCfg : ClientStateMachine.ClientConfig where
  button_pin := 17
  button_debounce_ms := 50
  vpn_socket_path := "/tmp/test_vpn.sock"
  ws_server_host := "192.168.1.1"
  ws_server_port := 8080
  auto_retry := true
  max_retry_attempts := 3

/-- All-zero statistics. -/
def zeroStats : ClientStateMachine.ClientStats where
  button_press_count := 0
  successful_queries := 0
  failed_queries := 0
  vpn_connect_count := 0
  vpn_success_count := 0
  error_count := 0
  last_query_time := 0

/-- An idle orchestrator context. -/
def clientCtxIdle : ClientStateMachine.ClientCtx where
  initialized := true
  current_state := .IDLE
  previous_state := .IDLE
  config := clientCfg
  ps5_status := .UNKNOWN
  stats := zeroStats
  state_enter_time := 0
  current_timeout := 0
  last_error := .NONE
  error_count := 0
  in_error_recovery := false
  led_update_done := false
  led_update_start_time := 0

/-- The orchestrator on its first entry into `QUERYING_PS5` (entered at
t = 10000 ms, carrying the 5 s query timeout). -/
def clientCtxQuery1 : ClientStateMachine.ClientCtx :=
  { clientCtxIdle with
    current_state := .QUERYING_PS5
    previous_state := .WS_CONNECTING
    stats := { zeroStats with button_press_count := 1, vpn_connect_count := 1,
                              vpn_success_count := 1 }
    state_enter_time := 10000
    current_timeout := 5000 }

/-- The orchestrator on its second entry into `QUERYING_PS5` (a later
press-to-idle cycle, entered at t = 20000 ms), after the first cycle's
query succeeded. -/
def clientCtxQuery2 : ClientStateMachine.ClientCtx :=
  { clientCtxQuery1 with
    ps5_status := .ON
    stats := { zeroStats with button_press_count := 2, vpn_connect_count := 2,
                              vpn_success_count := 2, successful_queries := 1,
                              last_query_time := 1730000000 }
    state_enter_time := 20000 }

/-- An orchestrator context that entered `CLEANUP` from `ERROR` inside a
retry cycle: auto-retry enabled, retry budget remaining
(`error_count = 1 < 3`), last error recorded. -/
def clientCtxRetryCycle : ClientStateMachine.ClientCtx :=
  { clientCtxIdle with
    current_state := .CLEANUP
    previous_state := .ERROR
    stats := { zeroStats with button_press_count := 1, failed_queries := 1, error_count := 1 }
    state_enter_time := 40000
    last_error := .PS5_TIMEOUT
    error_count := 1 }

/-- A `"status":"on"` payload as in spec §6/§8. -/
def statusOnMsg : String := "\x7b\"status\":\"on\"\x7d"

/-- An idle button context with the default 50 ms debounce and 2000 ms
long-press threshold. -/
def buttonCtxIdle : ButtonHandler.ButtonCtx where
  gpio_pin := 17
  debounce_ms := 50
  long_press_threshold_ms := 2000
  current_state := .IDLE
  initialized := true
  running := false
  press_start_time := 0
  last_state_change_time := 0
  stable_count := 0
  long_press_triggered := false

/-- A button context of a debounced press: `PRESSED` entered at t = 500 ms,
long press not yet fired. -/
def buttonCtxPressed : ButtonHandler.ButtonCtx :=
  { buttonCtxIdle with
    current_state := .PRESSED
    press_start_time := 500
    last_state_change_time := 500
    stable_count := 5 }

/-! ## Shared helper lemmas -/

/-- The orchestrator's `change_state` always lands in the requested state. -/
theorem client_change_state_target (c : ClientStateMachine.ClientCtx)
    (s : ClientStateMachine.ClientState) (now : Nat) :
    (ClientStateMachine.change_state c s now).1.current_state = s := by
  unfold ClientStateMachine.change_state
  split_ifs with h
  · exact h
  · rfl

/-- `report_error` does not move the orchestrator's state. -/
theorem report_error_keeps_state (c : ClientStateMachine.ClientCtx)
    (e : ClientStateMachine.ClientError) (msg : String) :
    (ClientStateMachine.report_error c e msg).1.current_state = c.current_state := rfl

/-- Splitting a button sample run at an append. -/
theorem button_run_append (c : ButtonHandler.ButtonCtx)
    (xs ys : List ButtonHandler.Sample) :
    ButtonHandler.run c (xs ++ ys) =
      ((ButtonHandler.run (ButtonHandler.run c xs).1 ys).1,
       (ButtonHandler.run c xs).2 ++ (ButtonHandler.run (ButtonHandler.run c xs).1 ys).2) := by
  induction xs generalizing c with
  | nil => simp [ButtonHandler.run]
  | cons s rest ih => simp [ButtonHandler.run, ih]

/-- A pressed sample in `DEBOUNCING` that has not yet accumulated the
required stable count only increments the counter. -/
theorem step_debouncing_pressed (c : ButtonHandler.ButtonCtx) (now : Int)
    (hst : c.current_state = .DEBOUNCING)
    (hlt : c.stable_count + 1 < ButtonHandler.required_stable c.debounce_ms) :
    ButtonHandler.update_state_machine c 0 now =
      ({ c with stable_count := c.stable_count + 1 }, []) := by
  unfold ButtonHandler.update_state_machine
  simp only [hst]
  norm_num
  intro h
  exact absurd h (by omega)

/-- While debouncing, a run of pressed samples too short to reach the
required stable count only advances the counter and emits nothing. -/
theorem debouncing_hold_run (samples : List ButtonHandler.Sample)
    (c : ButtonHandler.ButtonCtx)
    (hst : c.current_state = .DEBOUNCING)
    (hall : ∀ s ∈ samples, s.raw = 0)
    (hlt : c.stable_count + samples.length < ButtonHandler.required_stable c.debounce_ms) :
    ButtonHandler.run c samples =
      ({ c with stable_count := c.stable_count + samples.length }, []) := by
  induction samples generalizing c with
  | nil => simp [ButtonHandler.run]
  | cons s rest ih =>
      have hs0 : s.raw = 0 := hall s (by simp)
      have hstep := step_debouncing_pressed c s.now hst (by simp at hlt; omega)
      simp only [ButtonHandler.run, hs0, hstep]
      rw [ih { c with stable_count := c.stable_count + 1 } hst
        (fun t ht => hall t (by simp [ht])) (by simp at hlt ⊢; omega)]
      simp only [Prod.mk.injEq, ButtonHandler.ButtonCtx.mk.injEq, List.length_cons,
        List.nil_append, and_true, true_and, eq_self_iff_true]
      push_cast
      ring

/-- A real transition of the button `change_state` lands in the requested
state. -/
theorem button_change_state_state (c : ButtonHandler.ButtonCtx)
    (s : ButtonHandler.ButtonState) (now : Int) (h : c.current_state ≠ s) :
    (ButtonHandler.change_state c s now).current_state = s := by
  unfold ButtonHandler.change_state
  rw [if_neg h]

/-- Pressed samples in `LONG_DETECTED` leave the context unchanged and emit
no event. -/
theorem long_detected_hold_run (samples : List ButtonHandler.Sample)
    (c : ButtonHandler.ButtonCtx)
    (hst : c.current_state = .LONG_DETECTED)
    (hall : ∀ s ∈ samples, s.raw = 0) :
    ButtonHandler.run c samples = (c, []) := by
  induction samples with
  | nil => rfl
  | cons s rest ih =>
      have hs0 : s.raw = 0 := hall s (by simp)
      have hstep : ButtonHandler.update_state_machine c s.raw s.now = (c, []) := by
        unfold ButtonHandler.update_state_machine
        simp [hst, hs0]
      simp only [ButtonHandler.run, hstep]
      rw [ih (fun t ht => hall t (by simp [ht]))]
      rfl

/-- Pressed samples whose press duration stays below the long-press
threshold leave `PRESSED` (with the flag clear) unchanged and emit no
event. -/
theorem pressed_below_hold_run (samples : List ButtonHandler.Sample)
    (c : ButtonHandler.ButtonCtx)
    (hst : c.current_state = .PRESSED)
    (hflag : c.long_press_triggered = false)
    (hall : ∀ s ∈ samples, s.raw = 0 ∧
      s.now - c.press_start_time < c.long_press_threshold_ms) :
    ButtonHandler.run c samples = (c, []) := by
  induction samples with
  | nil => rfl
  | cons s rest ih =>
      obtain ⟨hs0, hslt⟩ := hall s (by simp)
      have hstep : ButtonHandler.update_state_machine c s.raw s.now = (c, []) := by
        unfold ButtonHandler.update_state_machine
        simp only [hst, hs0]
        norm_num
        intro hge
        omega
      simp only [ButtonHandler.run, hstep]
      rw [ih (fun t ht => hall t (by simp [ht]))]
      rfl

/-- A run of pressed samples at least one of which reaches the long-press
threshold fires `LONG_PRESS` exactly once, sets the flag and parks the FSM
in `LONG_DETECTED`. -/
theorem pressed_cross_hold_run (samples : List ButtonHandler.Sample)
    (c : ButtonHandler.ButtonCtx)
    (hst : c.current_state = .PRESSED)
    (hflag : c.long_press_triggered = false)
    (hall : ∀ s ∈ samples, s.raw = 0)
    (hex : ∃ s ∈ samples, c.long_press_threshold_ms ≤ s.now - c.press_start_time) :
    (ButtonHandler.run c samples).1.current_state = .LONG_DETECTED ∧
    (ButtonHandler.run c samples).1.long_press_triggered = true ∧
    (ButtonHandler.run c samples).2 = [.LONG_PRESS] := by
  induction samples with
  | nil => simp at hex
  | cons s rest ih =>
      have hs0 : s.raw = 0 := hall s (by simp)
      by_cases hcross : c.long_press_threshold_ms ≤ s.now - c.press_start_time
      · have hstep : ButtonHandler.update_state_machine c s.raw s.now =
            ({ c with
                long_press_triggered := true
                current_state := ButtonHandler.ButtonState.LONG_DETECTED
                last_state_change_time := s.now },
             [ButtonHandler.ButtonEvent.LONG_PRESS]) := by
          unfold ButtonHandler.update_state_machine ButtonHandler.change_state
          simp [hst, hs0, hflag, hcross]
        simp only [ButtonHandler.run, hstep]
        rw [long_detected_hold_run rest _ rfl (fun t ht => hall t (by simp [ht]))]
        simp
      · have hstep : ButtonHandler.update_state_machine c s.raw s.now = (c, []) := by
          unfold ButtonHandler.update_state_machine
          simp only [hst, hs0]
          norm_num
          intro hge
          omega
        have hex' : ∃ t ∈ rest, c.long_press_threshold_ms ≤ t.now - c.press_start_time := by
          rcases hex with ⟨t, ht, hcr⟩
          rcases List.mem_cons.mp ht with heq | hmem
          · subst heq; exact absurd hcr hcross
          · exact ⟨t, hmem, hcr⟩
        have := ih (fun t ht => hall t (by simp [ht])) hex'
        simp only [ButtonHandler.run, hstep]
        simpa using this

/-! ## Claims -/

/-- A `should_retry` verdict of true implies the retry budget is not yet
exhausted. -/
theorem should_retry_budget (c : VpnController.VpnCtx) (now : Nat)
    (h : VpnController.should_retry c now = true) :
    c.retry_count < VpnController.VPN_MAX_RETRY_ATTEMPTS := by
  unfold VpnController.should_retry at h
  split_ifs at h with h1 h2
  omega

/-- `vpn_controller_process` is a no-op on the context while no operation is
pending, so a run of ticks issues no retries. -/
theorem vpn_run_not_pending (inputs : List VpnController.VpnInput)
    (c : VpnController.VpnCtx) (h : c.operation_pending = false) :
    VpnController.run c inputs = (c, 0) := by
  induction inputs with
  | nil => rfl
  | cons i rest ih =>
      have hstep : (VpnController.vpn_controller_process c i.now i.send_ok i.recv).ctx = c ∧
          (VpnController.vpn_controller_process c i.now i.send_ok i.recv).retry_sent
            = false := by
        unfold VpnController.vpn_controller_process
        by_cases hinit : c.initialized = false <;> simp [hinit, h]
      simp only [VpnController.run, hstep.1, hstep.2, ih]
      simp

/-- While an operation is pending with `r` retries already used, any run of
`vpn_controller_process` ticks issues at most `3 - r` further retries. -/
theorem vpn_run_retry_bound (inputs : List VpnController.VpnInput)
    (c : VpnController.VpnCtx)
    (hrc : c.retry_count ≤ VpnController.VPN_MAX_RETRY_ATTEMPTS) :
    (VpnController.run c inputs).2 + c.retry_count ≤
      VpnController.VPN_MAX_RETRY_ATTEMPTS := by
  induction inputs generalizing c with
  | nil =>
      simpa [VpnController.run] using hrc
  | cons i rest ih =>
      by_cases hpend : c.operation_pending = false
      · rw [vpn_run_not_pending (i :: rest) c hpend]
        simpa using hrc
      rw [Bool.not_eq_false] at hpend
      by_cases hinit : c.initialized = false
      · have hstep : VpnController.vpn_controller_process c i.now i.send_ok i.recv =
            ⟨-1, c, [], false⟩ := by
          unfold VpnController.vpn_controller_process
          simp [hinit]
        simp only [VpnController.run, hstep]
        simpa using ih c hrc
      rw [Bool.not_eq_false] at hinit
      by_cases htime : VpnController.is_timeout c.operation_start_time
          c.operation_timeout i.now = true
      · by_cases hretry : VpnController.should_retry c i.now = true
        · have hlt := should_retry_budget c i.now hretry
          by_cases hsend : i.send_ok = false
          · have hstep : VpnController.vpn_controller_process c i.now i.send_ok i.recv =
                ⟨-1, { (VpnController.change_state { c with
                    retry_count := c.retry_count + 1,
                    last_retry_time := i.now,
                    operation_start_time := i.now } .ERROR).1 with
                    operation_pending := false },
                  (VpnController.change_state { c with
                    retry_count := c.retry_count + 1,
                    last_retry_time := i.now,
                    operation_start_time := i.now } .ERROR).2.toList, true⟩ := by
              unfold VpnController.vpn_controller_process
              simp [hinit, hpend, htime, hretry, hsend]
            have hpend2 : ({ (VpnController.change_state { c with
                retry_count := c.retry_count + 1,
                last_retry_time := i.now,
                operation_start_time := i.now } .ERROR).1 with
                operation_pending := false }
                  : VpnController.VpnCtx).operation_pending = false := rfl
            simp only [VpnController.run, hstep]
            rw [vpn_run_not_pending rest _ hpend2]
            simp
            omega
          · rw [Bool.not_eq_false] at hsend
            have hstep : VpnController.vpn_controller_process c i.now i.send_ok i.recv =
                ⟨0, { c with
                    retry_count := c.retry_count + 1,
                    last_retry_time := i.now,
                    operation_start_time := i.now }, [], true⟩ := by
              unfold VpnController.vpn_controller_process
              simp [hinit, hpend, htime, hretry, hsend]
            simp only [VpnController.run, hstep]
            have := ih { c with
                retry_count := c.retry_count + 1,
                last_retry_time := i.now,
                operation_start_time := i.now } (by simp; omega)
            simp at this ⊢
            omega
        · have hstep : VpnController.vpn_controller_process c i.now i.send_ok i.recv =
              ⟨-1, { (VpnController.change_state c .ERROR).1 with
                  operation_pending := false },
                (VpnController.change_state c .ERROR).2.toList, false⟩ := by
            unfold VpnController.vpn_controller_process
            simp [hinit, hpend, htime, hretry]
          simp only [VpnController.run, hstep]
          rw [vpn_run_not_pending rest _ rfl]
          simpa using hrc
      · have hstepcases : (VpnController.vpn_controller_process c i.now i.send_ok
            i.recv).retry_sent = false ∧
            ((VpnController.vpn_controller_process c i.now i.send_ok i.recv).ctx = c ∨
             (VpnController.vpn_controller_process c i.now i.send_ok
               i.recv).ctx.operation_pending = false) := by
          unfold VpnController.vpn_controller_process
          simp only [hinit, hpend, htime]
          cases i.recv with
          | ioError => simp [VpnController.change_state]
          | noData => simp
          | payload s =>
              by_cases hparse : VpnController.parse_state_from_response s =
                  VpnController.VpnState.UNKNOWN <;>
                simp [hparse, VpnController.change_state]
        obtain ⟨hrs, hctx⟩ := hstepcases
        rcases hctx with hctx | hctx
        · simp only [VpnController.run, hrs, hctx]
          simpa using ih c hrc
        · simp only [VpnController.run, hrs]
          rw [vpn_run_not_pending rest _ hctx]
          simpa using hrc

/-- **C3.** For every single pending operation (started with a zero retry
counter, as `vpn_controller_connect` does), any sequence of
`vpn_controller_process` ticks re-issues the pending command at most
`VPN_MAX_RETRY_ATTEMPTS` (3) times; and whenever the tick times out with the
retry budget exhausted, it transitions to `ERROR` and clears the
operation-pending flag. -/
theorem C3_vpn_retry_budget (c : VpnController.VpnCtx)
    (inputs : List VpnController.VpnInput)
    (hrc : c.retry_count = 0) :
    (VpnController.run c inputs).2 ≤ VpnController.VPN_MAX_RETRY_ATTEMPTS ∧
    (∀ (c' : VpnController.VpnCtx) (now : Nat) (send_ok : Bool)
        (recv : VpnController.RecvResult),
      c'.initialized = true → c'.operation_pending = true →
      VpnController.is_timeout c'.operation_start_time c'.operation_timeout now = true →
      VpnController.VPN_MAX_RETRY_ATTEMPTS ≤ c'.retry_count →
      (VpnController.vpn_controller_process c' now send_ok recv).ctx.current_state =
        .ERROR ∧
      (VpnController.vpn_controller_process c' now send_ok recv).ctx.operation_pending =
        false) := by
  constructor
  · have := vpn_run_retry_bound inputs c (by omega)
    omega
  · intro c' now send_ok recv hinit hpend htime hexh
    have hsr : VpnController.should_retry c' now = false := by
      unfold VpnController.should_retry
      simp [hexh]
    unfold VpnController.vpn_controller_process
    simp only [hinit, hpend, htime, hsr]
    unfold VpnController.change_state
    by_cases herr : c'.current_state = VpnController.VpnState.ERROR <;> simp [herr]

/-- Witness for C3 at a concrete exhausted context and a concrete
three-tick timeout trace from a fresh pending operation. -/
theorem C3_witness :
    (VpnController.run vpnCtxPending
      [⟨40000, true, .noData⟩, ⟨80000, true, .noData⟩, ⟨120000, true, .noData⟩,
       ⟨160000, true, .noData⟩, ⟨200000, true, .noData⟩]).2 ≤
      VpnController.VPN_MAX_RETRY_ATTEMPTS ∧
    (VpnController.vpn_controller_process vpnCtxExhausted 160000 true
      VpnController.RecvResult.noData).ctx.current_state = .ERROR ∧
    (VpnController.vpn_controller_process vpnCtxExhausted 160000 true
      VpnController.RecvResult.noData).ctx.operation_pending = false :=
  ⟨(C3_vpn_retry_budget vpnCtxPending
      [⟨40000, true, .noData⟩, ⟨80000, true, .noData⟩, ⟨120000, true, .noData⟩,
       ⟨160000, true, .noData⟩, ⟨200000, true, .noData⟩] rfl).1,
   (C3_vpn_retry_budget vpnCtxPending [] rfl).2 vpnCtxExhausted 160000 true
      .noData rfl rfl (by decide) (by decide)⟩

/-- **C1 (code bug).** The query-sent flag of `handle_querying_ps5_state` is
a function-local `static`: it is set on a successful send and reset only on
the error and timeout paths, never when the response arrives.  On the first
entry into `QUERYING_PS5` the query is sent and the flag becomes true; the
success path (`on_ws_message`) advances to `LED_UPDATE` without resetting
the flag; consequently, on the next entry into `QUERYING_PS5` of a later
press-to-idle cycle the handler sends nothing on any pre-timeout tick — the
status query is not sent at least once after that entry, contradicting
exactly-once-per-entry. -/
theorem C1_query_sent_static_bug :
    (ClientStateMachine.ClientEff.wsSend ClientStateMachine.ps5QueryMsg ∈
      (ClientStateMachine.handle_querying_ps5_state clientCtxQuery1 false 0 10100).2.2 ∧
     (ClientStateMachine.handle_querying_ps5_state clientCtxQuery1 false 0 10100).2.1 =
       true) ∧
    (ClientStateMachine.on_ws_message
      (ClientStateMachine.handle_querying_ps5_state clientCtxQuery1 false 0 10100).1
      statusOnMsg 1730000000 10200).1.current_state = .LED_UPDATE ∧
    ClientStateMachine.handle_querying_ps5_state clientCtxQuery2 true 0 20100 =
      (clientCtxQuery2, true, []) ∧
    ClientStateMachine.handle_querying_ps5_state clientCtxQuery2 true 0 23000 =
      (clientCtxQuery2, true, []) := by decide

/-- **C4.** For every debounce duration (with the fixed 10 ms poll
interval), the required stable-sample count equals
`max(1, debounce_ms / poll_interval_ms)`, and starting from `IDLE`, any run
of fewer than that many consecutive pressed samples followed by a released
sample returns the FSM to `IDLE` without emitting any press event (neither
`SHORT_PRESS` nor `LONG_PRESS`). -/
theorem C4_debounce_required_stable (c : ButtonHandler.ButtonCtx)
    (press : List ButtonHandler.Sample) (rel : ButtonHandler.Sample)
    (hst : c.current_state = .IDLE)
    (hall : ∀ s ∈ press, s.raw = 0)
    (hrel : rel.raw = 1)
    (hlen : (press.length : Int) < ButtonHandler.required_stable c.debounce_ms) :
    (∀ d : Int, ButtonHandler.required_stable d =
      max 1 (d.tdiv ButtonHandler.BUTTON_POLL_INTERVAL_MS)) ∧
    (ButtonHandler.run c (press ++ [rel])).1.current_state = .IDLE ∧
    (ButtonHandler.run c (press ++ [rel])).2 = [] := by
  have hreq : ∀ d : Int, ButtonHandler.required_stable d =
      max 1 (d.tdiv ButtonHandler.BUTTON_POLL_INTERVAL_MS) := by
    intro d
    simp only [ButtonHandler.required_stable, max_def]
    split_ifs <;> omega
  refine ⟨hreq, ?_⟩
  cases press with
  | nil =>
      have hstep : ButtonHandler.update_state_machine c rel.raw rel.now = (c, []) := by
        unfold ButtonHandler.update_state_machine
        simp [hst, hrel]
      simp [ButtonHandler.run, hstep, hst]
  | cons p ps =>
      have hp0 : p.raw = 0 := hall p (by simp)
      have hstep1 : ButtonHandler.update_state_machine c p.raw p.now =
          ({ c with
              current_state := ButtonHandler.ButtonState.DEBOUNCING
              last_state_change_time := p.now
              stable_count := 0
              long_press_triggered := false }, []) := by
        unfold ButtonHandler.update_state_machine ButtonHandler.change_state
        simp [hst, hp0]
      have hdeb := debouncing_hold_run ps
        { c with
            current_state := ButtonHandler.ButtonState.DEBOUNCING
            last_state_change_time := p.now
            stable_count := 0
            long_press_triggered := false } rfl
        (fun t ht => hall t (by simp [ht]))
        (by simp only [List.length_cons] at hlen ⊢; push_cast at hlen ⊢; omega)
      have hrelstep : ∀ cD : ButtonHandler.ButtonCtx, cD.current_state = .DEBOUNCING →
          ButtonHandler.update_state_machine cD rel.raw rel.now =
            (ButtonHandler.change_state cD .IDLE rel.now, []) := by
        intro cD hcD
        unfold ButtonHandler.update_state_machine
        simp [hcD, hrel]
      have hrun1 : ButtonHandler.run c (p :: ps) =
          ({ c with
              current_state := ButtonHandler.ButtonState.DEBOUNCING
              last_state_change_time := p.now
              stable_count := (ps.length : Int)
              long_press_triggered := false }, []) := by
        simp only [ButtonHandler.run, hstep1]
        rw [hdeb]
        simp
      have hsplit := button_run_append c (p :: ps) [rel]
      rw [hrun1] at hsplit
      have hrelrun : ButtonHandler.run
          { c with
              current_state := ButtonHandler.ButtonState.DEBOUNCING
              last_state_change_time := p.now
              stable_count := (ps.length : Int)
              long_press_triggered := false } [rel] =
          (ButtonHandler.change_state
            { c with
                current_state := ButtonHandler.ButtonState.DEBOUNCING
                last_state_change_time := p.now
                stable_count := (ps.length : Int)
                long_press_triggered := false } ButtonHandler.ButtonState.IDLE rel.now,
           []) := by
        have hone := hrelstep
          { c with
              current_state := ButtonHandler.ButtonState.DEBOUNCING
              last_state_change_time := p.now
              stable_count := (ps.length : Int)
              long_press_triggered := false } rfl
        simp only [ButtonHandler.run, hone]
        rfl
      rw [hsplit, hrelrun]
      refine ⟨?_, rfl⟩
      exact button_change_state_state _ _ _ (by simp)

/-- Witness for C4: with the default 50 ms debounce (required count 5),
two pressed samples followed by a release return to IDLE with no event. -/
theorem C4_witness :
    (ButtonHandler.run buttonCtxIdle
      [⟨0, 100⟩, ⟨0, 110⟩, ⟨1, 120⟩]).1.current_state = .IDLE ∧
    (ButtonHandler.run buttonCtxIdle [⟨0, 100⟩, ⟨0, 110⟩, ⟨1, 120⟩]).2 = [] :=
  (C4_debounce_required_stable buttonCtxIdle [⟨0, 100⟩, ⟨0, 110⟩] ⟨1, 120⟩ rfl
    (by intro s hs; fin_cases hs <;> rfl) rfl (by decide)).2

/-- **C5.** For every debounced press (the FSM in `PRESSED` with the
long-press flag clear): if some held sample reaches the long-press
threshold, the FSM emits exactly one `LONG_PRESS` and zero `SHORT_PRESS`
events, parking in `LONG_DETECTED` until the release, which emits no
further event; if the press is released with every held sample below the
threshold, it emits exactly one `SHORT_PRESS` and zero `LONG_PRESS` events
and returns to `IDLE`. -/
theorem C5_press_classification (c : ButtonHandler.ButtonCtx)
    (holds : List ButtonHandler.Sample) (rel : ButtonHandler.Sample)
    (hst : c.current_state = .PRESSED)
    (hflag : c.long_press_triggered = false)
    (hall : ∀ s ∈ holds, s.raw = 0)
    (hrel : rel.raw = 1) :
    ((∀ s ∈ holds, s.now - c.press_start_time < c.long_press_threshold_ms) →
      (ButtonHandler.run c (holds ++ [rel])).2 = [.SHORT_PRESS] ∧
      (ButtonHandler.run c (holds ++ [rel])).1.current_state = .IDLE) ∧
    ((∃ s ∈ holds, c.long_press_threshold_ms ≤ s.now - c.press_start_time) →
      (ButtonHandler.run c holds).1.current_state = .LONG_DETECTED ∧
      (ButtonHandler.run c (holds ++ [rel])).2 = [.LONG_PRESS] ∧
      (ButtonHandler.run c (holds ++ [rel])).1.current_state = .IDLE) := by
  constructor
  · intro hbelow
    have hholds := pressed_below_hold_run holds c hst hflag
      (fun s hs => ⟨hall s hs, hbelow s hs⟩)
    have hstep : ButtonHandler.update_state_machine c rel.raw rel.now =
        (ButtonHandler.change_state c .IDLE rel.now, [.SHORT_PRESS]) := by
      unfold ButtonHandler.update_state_machine
      simp [hst, hrel, hflag]
    rw [button_run_append, hholds]
    simp only [ButtonHandler.run, hstep]
    rw [button_change_state_state _ _ _ (by rw [hst]; simp)]
    simp
  · intro hcross
    have hmain := pressed_cross_hold_run holds c hst hflag hall hcross
    have hstep : ButtonHandler.update_state_machine (ButtonHandler.run c holds).1
        rel.raw rel.now =
        (ButtonHandler.change_state (ButtonHandler.run c holds).1 .IDLE rel.now, []) := by
      unfold ButtonHandler.update_state_machine
      simp [hmain.1, hmain.2.1, hrel]
    refine ⟨hmain.1, ?_, ?_⟩
    · rw [button_run_append]
      simp only [ButtonHandler.run, hstep]
      simp [hmain.2.2]
    · rw [button_run_append]
      simp only [ButtonHandler.run, hstep]
      rw [button_change_state_state _ _ _ (by rw [hmain.1]; simp)]

/-- Witness for C5: a press held past the 2000 ms threshold yields one
LONG_PRESS then IDLE on release; a short hold yields one SHORT_PRESS. -/
theorem C5_witness :
    ((ButtonHandler.run buttonCtxPressed [⟨0, 600⟩, ⟨1, 1300⟩]).2 = [.SHORT_PRESS] ∧
     (ButtonHandler.run buttonCtxPressed [⟨0, 600⟩, ⟨1, 1300⟩]).1.current_state = .IDLE) ∧
    ((ButtonHandler.run buttonCtxPressed [⟨0, 600⟩, ⟨0, 3000⟩]).1.current_state =
       .LONG_DETECTED ∧
     (ButtonHandler.run buttonCtxPressed [⟨0, 600⟩, ⟨0, 3000⟩, ⟨1, 3100⟩]).2 =
       [.LONG_PRESS] ∧
     (ButtonHandler.run buttonCtxPressed
       [⟨0, 600⟩, ⟨0, 3000⟩, ⟨1, 3100⟩]).1.current_state = .IDLE) :=
  ⟨(C5_press_classification buttonCtxPressed [⟨0, 600⟩] ⟨1, 1300⟩ rfl rfl
      (by intro s hs; fin_cases hs <;> rfl) rfl).1
      (by intro s hs; fin_cases hs <;> decide),
   (C5_press_classification buttonCtxPressed [⟨0, 600⟩, ⟨0, 3000⟩] ⟨1, 3100⟩ rfl rfl
      (by intro s hs; fin_cases hs <;> rfl) rfl).2
      ⟨⟨0, 3000⟩, by simp, by decide⟩⟩

/-- **C10.** For every `debounce_ms` less than or equal to zero (zero or any
negative value), `button_handler_init` on a not-yet-initialized context with
a nonnegative pin succeeds and substitutes the default 50 ms debounce
duration, while a negative pin argument makes the call fail with the context
unchanged (no mutation persists). -/
theorem C10_button_init_debounce_default (c : ButtonHandler.ButtonCtx) (pin d : Int) :
    (c.initialized = false → 0 ≤ pin → d ≤ 0 →
      (ButtonHandler.button_handler_init c pin d).1 = 0 ∧
      (ButtonHandler.button_handler_init c pin d).2.debounce_ms =
        ButtonHandler.BUTTON_DEFAULT_DEBOUNCE_MS ∧
      (ButtonHandler.button_handler_init c pin d).2.initialized = true) ∧
    (pin < 0 → ButtonHandler.button_handler_init c pin d = (-1, c)) := by
  constructor
  · intro hinit hpin hd
    have h1 : ¬ pin < 0 := by omega
    have h2 : ¬ d > 0 := by omega
    simp [ButtonHandler.button_handler_init, hinit, h1, h2]
  · intro hpin
    by_cases hinit : c.initialized
    · simp [ButtonHandler.button_handler_init, hinit]
    · simp [ButtonHandler.button_handler_init, hinit, hpin]

/-- Witness for C10 at concrete inputs: `debounce_ms = 0` yields the 50 ms
default, and pin `-1` is rejected without mutation. -/
theorem C10_witness :
    ((ButtonHandler.button_handler_init ButtonHandler.zeroCtx 17 0).1 = 0 ∧
     (ButtonHandler.button_handler_init ButtonHandler.zeroCtx 17 0).2.debounce_ms =
       ButtonHandler.BUTTON_DEFAULT_DEBOUNCE_MS ∧
     (ButtonHandler.button_handler_init ButtonHandler.zeroCtx 17 0).2.initialized = true) ∧
    ButtonHandler.button_handler_init ButtonHandler.zeroCtx (-1) 50 =
      (-1, ButtonHandler.zeroCtx) :=
  ⟨(C10_button_init_debounce_default ButtonHandler.zeroCtx 17 0).1 rfl (by decide) (by decide),
   (C10_button_init_debounce_default ButtonHandler.zeroCtx (-1) 50).2 (by decide)⟩

/-- **C8.** `ws_client_send` is rejected whenever the client is not
initialized, the payload is null, the client is not `CONNECTED`, or the
payload length is at least the maximum message size; in every rejected case
it returns -1 with the client context unchanged (no field mutated). -/
theorem C8_ws_send_reject_no_mutation (c : WebsocketClient.WsCtx) (message : Option String)
    (h : c.initialized = false ∨ message = none ∨
         c.current_state ≠ .CONNECTED ∨
         ∃ m, message = some m ∧ WebsocketClient.WS_MAX_MESSAGE_SIZE ≤ m.length) :
    WebsocketClient.ws_client_send c message = (-1, c) := by
  cases message with
  | none => rfl
  | some msg =>
      have h' : c.initialized = false ∨ c.current_state ≠ .CONNECTED ∨
          WebsocketClient.WS_MAX_MESSAGE_SIZE ≤ msg.length := by
        rcases h with h | h | h | ⟨m, hm, hlen⟩
        · exact Or.inl h
        · cases h
        · exact Or.inr (Or.inl h)
        · cases hm; exact Or.inr (Or.inr hlen)
      unfold WebsocketClient.ws_client_send
      rcases h' with h | h | h
      · simp [h]
      · simp [h]
      · simp only [WebsocketClient.WS_MAX_MESSAGE_SIZE] at h ⊢
        split_ifs <;> first | rfl | omega

/-- Witness for C8: a send attempt while `DISCONNECTED` is rejected and the
context is returned unchanged. -/
theorem C8_witness :
    WebsocketClient.ws_client_send wsCtxBase (some "hello") = (-1, wsCtxBase) :=
  C8_ws_send_reject_no_mutation wsCtxBase (some "hello")
    (Or.inr (Or.inr (Or.inl (by decide))))

/-- **C6.** ControlChannelFSM sequencing: on an initialized controller,
`vpn_controller_connect` fails when the state is `CONNECTED` and when it is
`CONNECTING`, and `vpn_controller_disconnect` succeeds as a no-op when
already `DISCONNECTED`; in each of these cases the returned context is the
input context (state, pending flag, retry counter and timeouts unchanged)
and no callback fires. -/
theorem C6_vpn_sequencing_rejects (c : VpnController.VpnCtx) (now : Nat) (send_ok : Bool)
    (hinit : c.initialized = true) :
    ((c.current_state = .CONNECTED ∨ c.current_state = .CONNECTING) →
      VpnController.vpn_controller_connect c now send_ok = ⟨-1, c, []⟩) ∧
    (c.current_state = .DISCONNECTED →
      VpnController.vpn_controller_disconnect c now send_ok = ⟨0, c, []⟩) := by
  constructor
  · rintro (h | h) <;> simp [VpnController.vpn_controller_connect, hinit, h]
  · intro h
    simp [VpnController.vpn_controller_disconnect, hinit, h]

/-- Witness for C6: connect while `CONNECTED` fails unchanged; disconnect
while `DISCONNECTED` is a successful no-op. -/
theorem C6_witness :
    VpnController.vpn_controller_connect vpnCtxConnected 1234 true =
      ⟨-1, vpnCtxConnected, []⟩ ∧
    VpnController.vpn_controller_disconnect vpnCtxDisconnected 1234 true =
      ⟨0, vpnCtxDisconnected, []⟩ :=
  ⟨(C6_vpn_sequencing_rejects vpnCtxConnected 1234 true rfl).1 (Or.inl rfl),
   (C6_vpn_sequencing_rejects vpnCtxDisconnected 1234 true rfl).2 rfl⟩

/-- **C2 counterexample.** At attempt count 29 with the 1000 ms base and
60000 ms maximum, the 32-bit product `1000 * (1 << 29)` wraps to exactly 0,
so the computed interval (0) differs from
`min(base * 2 ^ attempts, max) = 60000`; the claim's equality (and with it
non-decreasingness) fails at this attempt count. -/
theorem C2_counterexample :
    WebsocketClient.calculate_reconnect_interval wsCtxAttempts29 ≠
      min (wsCtxAttempts29.reconnect_interval * 2 ^ wsCtxAttempts29.reconnect_attempts)
        wsCtxAttempts29.max_reconnect_interval := by decide

/-- **C2 (amended).** As long as `base * 2 ^ attempts` does not overflow the
32-bit multiplication, the computed reconnect interval equals
`min(base * 2 ^ attempts, max)` and is non-decreasing in the attempt count;
for every attempt count (overflowing or not) the interval never exceeds the
configured maximum; and `should_reconnect` never allows an attempt once the
attempt counter has reached the configured cap. -/
theorem C2_reconnect_interval_bounds (c : WebsocketClient.WsCtx) :
    (c.reconnect_interval * 2 ^ c.reconnect_attempts < UINT32_MOD →
      WebsocketClient.calculate_reconnect_interval c =
        min (c.reconnect_interval * 2 ^ c.reconnect_attempts) c.max_reconnect_interval) ∧
    (∀ c' : WebsocketClient.WsCtx,
      c'.reconnect_interval = c.reconnect_interval →
      c'.max_reconnect_interval = c.max_reconnect_interval →
      c.reconnect_attempts ≤ c'.reconnect_attempts →
      c'.reconnect_interval * 2 ^ c'.reconnect_attempts < UINT32_MOD →
      WebsocketClient.calculate_reconnect_interval c ≤
        WebsocketClient.calculate_reconnect_interval c') ∧
    WebsocketClient.calculate_reconnect_interval c ≤ c.max_reconnect_interval ∧
    (∀ cap now, cap ≤ c.reconnect_attempts →
      WebsocketClient.should_reconnect c cap now = false) := by
  have hval : ∀ cW : WebsocketClient.WsCtx,
      cW.reconnect_interval * 2 ^ cW.reconnect_attempts < UINT32_MOD →
      WebsocketClient.calculate_reconnect_interval cW =
        min (cW.reconnect_interval * 2 ^ cW.reconnect_attempts) cW.max_reconnect_interval := by
    intro cW hov
    simp only [WebsocketClient.calculate_reconnect_interval]
    rw [Nat.mod_eq_of_lt hov]
    split_ifs <;> omega
  refine ⟨hval c, ?_, ?_, ?_⟩
  · intro c' hbase hmax hle hov
    rw [hbase] at hov
    have hle2 : c.reconnect_interval * 2 ^ c.reconnect_attempts ≤
        c.reconnect_interval * 2 ^ c'.reconnect_attempts :=
      Nat.mul_le_mul_left _ (Nat.pow_le_pow_right (by norm_num) hle)
    rw [hval c (lt_of_le_of_lt hle2 hov), hval c' (by rw [hbase]; exact hov), hbase, hmax]
    exact min_le_min hle2 le_rfl
  · simp only [WebsocketClient.calculate_reconnect_interval]
    split_ifs <;> omega
  · intro cap now hcap
    unfold WebsocketClient.should_reconnect
    split_ifs <;> first | rfl | omega

/-- Witness for C2 at concrete inputs: attempt counts 0 and 2 with the
default 1000/60000 configuration, and a cap of 2 already reached. -/
theorem C2_witness :
    WebsocketClient.calculate_reconnect_interval wsCtxAttempts2 =
      min (wsCtxAttempts2.reconnect_interval * 2 ^ wsCtxAttempts2.reconnect_attempts)
        wsCtxAttempts2.max_reconnect_interval ∧
    WebsocketClient.calculate_reconnect_interval wsCtxBase ≤
      WebsocketClient.calculate_reconnect_interval wsCtxAttempts2 ∧
    WebsocketClient.should_reconnect wsCtxAttempts2 2 123456 = false :=
  ⟨(C2_reconnect_interval_bounds wsCtxAttempts2).1 (by decide),
   (C2_reconnect_interval_bounds wsCtxBase).2.1 wsCtxAttempts2 rfl rfl (by decide) (by decide),
   (C2_reconnect_interval_bounds wsCtxAttempts2).2.2.2 2 123456 (by decide)⟩

/-- **C7 counterexample.** In a retry cycle (auto-retry enabled, retry
budget remaining, error recorded), `handle_cleanup_state` still returns the
orchestrator to `IDLE` — it does not route into a fresh attempt
(`VPN_CONNECTING`), contradicting the claim that inside a retry cycle
CLEANUP is routed back into a fresh attempt rather than into IDLE. -/
theorem C7_counterexample :
    clientCtxRetryCycle.config.auto_retry = true ∧
    clientCtxRetryCycle.error_count < clientCtxRetryCycle.config.max_retry_attempts ∧
    (ClientStateMachine.handle_cleanup_state clientCtxRetryCycle 41000).1.current_state =
      .IDLE ∧
    (ClientStateMachine.handle_cleanup_state clientCtxRetryCycle 41000).1.current_state ≠
      .VPN_CONNECTING := by decide

/-- **C7 (amended).** `ERROR` always transitions to `CLEANUP` (whether or
not retry budget remains and auto-retry is enabled), and `CLEANUP` always
returns to `IDLE` — also inside a retry cycle; the code never routes CLEANUP
into a fresh attempt, so repeating the workflow requires a new button press
from IDLE. -/
theorem C7_error_cleanup_routing (c : ClientStateMachine.ClientCtx) (now : Nat) :
    (ClientStateMachine.handle_error_state c now).1.current_state = .CLEANUP ∧
    (ClientStateMachine.handle_cleanup_state c now).1.current_state = .IDLE := by
  constructor
  · unfold ClientStateMachine.handle_error_state
    split_ifs <;> simp [client_change_state_target, report_error_keeps_state,
      ClientStateMachine.report_error, client_change_state_target]
  · unfold ClientStateMachine.handle_cleanup_state
    split_ifs <;> simp [client_change_state_target]

/-- **C9.** For each of the four FSMs, calling the module's internal
`change_state` with the current state is a complete no-op: the context is
returned unchanged (previous state and state-entry/state-change timestamps
included) and no state-change, connected, disconnected or error callback is
invoked; consequently, whenever a state-change callback does fire, it
carries `old ≠ new`. -/
theorem C9_change_state_self_noop (bc : ButtonHandler.ButtonCtx) (bnow : Int)
    (wc : WebsocketClient.WsCtx) (vc : VpnController.VpnCtx)
    (cc : ClientStateMachine.ClientCtx) (cnow : Nat) :
    ButtonHandler.change_state bc bc.current_state bnow = bc ∧
    WebsocketClient.change_state wc wc.current_state = (wc, []) ∧
    VpnController.change_state vc vc.current_state = (vc, none) ∧
    ClientStateMachine.change_state cc cc.current_state cnow = (cc, []) ∧
    (∀ s o n, (VpnController.change_state vc s).2 = some (o, n) → o ≠ n) ∧
    (∀ s o n es, (ClientStateMachine.change_state cc s cnow).2 =
        ClientStateMachine.ClientEff.stateCb o n :: es → o ≠ n) ∧
    (∀ s, (WebsocketClient.change_state wc s).2 ≠ [] → wc.current_state ≠ s) := by
  refine ⟨?_, ?_, ?_, ?_, ?_, ?_, ?_⟩
  · simp [ButtonHandler.change_state]
  · simp [WebsocketClient.change_state]
  · simp [VpnController.change_state]
  · simp [ClientStateMachine.change_state]
  · intro s o n h
    unfold VpnController.change_state at h
    split_ifs at h with heq
    cases h
    exact heq
  · intro s o n es h
    unfold ClientStateMachine.change_state at h
    split_ifs at h with heq
    cases h
    exact heq
  · intro s h heq
    apply h
    unfold WebsocketClient.change_state
    simp [heq]

/-- Witness for C9 at concrete contexts: a self-transition leaves the
button context untouched, and a real VPN transition's callback pair is
distinct. -/
theorem C9_witness :
    ButtonHandler.change_state buttonCtxIdle buttonCtxIdle.current_state 0 = buttonCtxIdle ∧
    VpnController.VpnState.DISCONNECTED ≠ VpnController.VpnState.CONNECTING :=
  ⟨(C9_change_state_self_noop buttonCtxIdle 0 wsCtxBase vpnCtxDisconnected clientCtxIdle 0).1,
   (C9_change_state_self_noop buttonCtxIdle 0 wsCtxBase vpnCtxDisconnected
      clientCtxIdle 0).2.2.2.2.1 .CONNECTING .DISCONNECTED .CONNECTING (by decide)⟩
